import Mathlib

/-!
A shallow embedding of `aleph_alpha_client/aleph_alpha_client.py` (the
validation-and-dispatch layer of the Aleph Alpha client SDK), together with
theorems settling the frozen claims about it.

Modelling conventions:
* Python's dynamically typed values are the inductive `PyVal`.  Python `bool`
  is a subclass of `int`, so `isinstance_int` accepts booleans, and `float()`
  of a boolean yields `1.0`/`0.0`, as in Python.
* Python floats are modelled as rationals (`Rat`).  Every float literal the
  source compares against (`0.0`, `1.0`) and every `float(int)` coercion is
  exact, so no rounding behaviour is observable in the embedded fragment.
* A Python `raise` is the `Except.error` branch; `ValueError`/`TypeError`
  are the constructors of `PyErr`.
* A client operation is embedded as a function from its arguments to
  `Except PyErr HttpRequest`: `.ok req` means the validation succeeded and
  `req` is the HTTP request the method then issues (`requests.post` with the
  given url and JSON payload); `.error e` means the method raises `e` before
  any network request is made.
* Network effects (the version string the server reports, the token returned
  by the `get_token` exchange, an HTTP response) are inputs of the embedded
  functions.
-/

namespace AlephAlpha

/-- A Python runtime value, restricted to the shapes the embedded client
code constructs or inspects: `None`, `bool`, `int`, `float` (as `Rat`),
`str`, `list`, and `dict` (as an association list). -/
inductive PyVal where
  | none
  | bool (b : Bool)
  | int (n : Int)
  | float (q : Rat)
  | str (s : String)
  | list (xs : List PyVal)
  | dict (kvs : List (PyVal × PyVal))

/-- A raised Python exception of the kinds the validation layer produces. -/
inductive PyErr where
  | valueError (msg : String)
  | typeError (msg : String)

/-- Python `x is None`. -/
def is_none : PyVal → Bool
  | .none => true
  | _ => false

/-- Python `isinstance(x, str)`. -/
def isinstance_str : PyVal → Bool
  | .str _ => true
  | _ => false

/-- Python `isinstance(x, int)`: `bool` is a subclass of `int`. -/
def isinstance_int : PyVal → Bool
  | .int _ => true
  | .bool _ => true
  | _ => false

/-- Python `isinstance(x, float)`: `int` is not a `float`. -/
def isinstance_float : PyVal → Bool
  | .float _ => true
  | _ => false

/-- Python `isinstance(x, bool)`. -/
def isinstance_bool : PyVal → Bool
  | .bool _ => true
  | _ => false

/-- Python `isinstance(x, list)`. -/
def isinstance_list : PyVal → Bool
  | .list _ => true
  | _ => false

/-- Python `isinstance(x, dict)`. -/
def isinstance_dict : PyVal → Bool
  | .dict _ => true
  | _ => false

/-- The numeric value of a Python number (`bool` counts as `1`/`0`), or
`Option.none` for a non-numeric value. -/
def PyVal.toRat? : PyVal → Option Rat
  | .int n => some (n : Rat)
  | .bool b => some (if b then 1 else 0)
  | .float q => some q
  | _ => Option.none

/-- Python `float(x)` applied after an `isinstance(x, int)` check: widens an
`int` (or `bool`) to the exactly equal float; leaves other values alone. -/
def pyFloat : PyVal → PyVal
  | .int n => .float (n : Rat)
  | .bool b => .float (if b then 1 else 0)
  | v => v

/-- Python `a < b` on the values the client compares: defined between
numbers, a `TypeError` otherwise (in particular between `int` and `None`). -/
def pyLt (a b : PyVal) : Except PyErr Bool :=
  match a.toRat?, b.toRat? with
  | some x, some y => .ok (decide (x < y))
  | _, _ => .error (.typeError "'<' not supported between instances")

/-- Python `a > b`, as `pyLt`. -/
def pyGt (a b : PyVal) : Except PyErr Bool :=
  match a.toRat?, b.toRat? with
  | some x, some y => .ok (decide (y < x))
  | _, _ => .error (.typeError "'>' not supported between instances")

/-- Python `a <= b`, as `pyLt`. -/
def pyLe (a b : PyVal) : Except PyErr Bool :=
  match a.toRat?, b.toRat? with
  | some x, some y => .ok (decide (x ≤ y))
  | _, _ => .error (.typeError "'<=' not supported between instances")

/-- Python `a == b` on the values the client compares: numeric equality
across `int`/`bool`/`float`, structural equality for `None` and strings,
and `False` between unrelated types (never an error). -/
def pyEqB (a b : PyVal) : Bool :=
  match a.toRat?, b.toRat? with
  | some x, some y => decide (x = y)
  | _, _ =>
    match a, b with
    | .none, .none => true
    | .str s, .str t => s == t
    | _, _ => false

/-- The items of a Python list (the embedding only calls this on values
already checked with `isinstance_list`). -/
def PyVal.listItems : PyVal → List PyVal
  | .list xs => xs
  | _ => []

/-- The key/value pairs of a Python dict (`dict.items()`; the embedding only
calls this on values already checked with `isinstance_dict`). -/
def PyVal.dictItems : PyVal → List (PyVal × PyVal)
  | .dict kvs => kvs
  | _ => []

/-- An HTTP response as `_translate_errors` sees it: the numeric status code
and the decoded JSON body (`response.json()`). -/
structure HttpResponse where
  status_code : Nat
  body : PyVal

/-- The typed errors `_translate_errors` raises: `ValueError` (400),
`PermissionError` (401), `QuotaError` (402), `TimeoutError` (408) and
`RuntimeError` (any other non-200 status), each constructed with the
original status code and the decoded response body. -/
inductive ClientError where
  | valueError (status : Nat) (body : PyVal)
  | permissionError (status : Nat) (body : PyVal)
  | quotaError (status : Nat) (body : PyVal)
  | timeoutError (status : Nat) (body : PyVal)
  | runtimeError (status : Nat) (body : PyVal)

/-- The status code a raised `ClientError` carries (first constructor
argument in the source: `raise XError(response.status_code, response.json())`). -/
def ClientError.status : ClientError → Nat
  | .valueError s _ => s
  | .permissionError s _ => s
  | .quotaError s _ => s
  | .timeoutError s _ => s
  | .runtimeError s _ => s

/-- The decoded response body a raised `ClientError` carries. -/
def ClientError.body : ClientError → PyVal
  | .valueError _ b => b
  | .permissionError _ b => b
  | .quotaError _ b => b
  | .timeoutError _ b => b
  | .runtimeError _ b => b

/-- `AlephAlphaClient._translate_errors`: status 200 returns the decoded
body; 400/401/402/408 raise `ValueError`/`PermissionError`/`QuotaError`/
`TimeoutError`; any other status raises `RuntimeError`; every error carries
`response.status_code` and `response.json()`. -/
def _translate_errors (response : HttpResponse) : Except ClientError PyVal :=
  if response.status_code = 200 then
    .ok response.body
  else
    if response.status_code = 400 then
      .error (.valueError response.status_code response.body)
    else if response.status_code = 401 then
      .error (.permissionError response.status_code response.body)
    else if response.status_code = 402 then
      .error (.quotaError response.status_code response.body)
    else if response.status_code = 408 then
      .error (.timeoutError response.status_code response.body)
    else
      .error (.runtimeError response.status_code response.body)

/-- Modelled from the spec: `_to_prompt_item` (from `prompt.py`, which is not
among the repository's files) converts one multimodal prompt item (a text
segment or image reference) to its serializable form; the spec does not
describe it failing on the items a list prompt may hold, so it is modelled
as the conversion to the item's serializable form (the item itself). -/
def _to_prompt_item (item : PyVal) : Except PyErr PyVal :=
  .ok item

/-- `_to_serializable_prompt`: a string prompt passes through unchanged (but
must be non-empty when `at_least_one_token` is set); a list prompt has each
item converted with `_to_prompt_item`; anything else raises `ValueError`. -/
def _to_serializable_prompt (prompt : PyVal) (at_least_one_token : Bool) :
    Except PyErr PyVal :=
  match prompt with
  | .str s =>
    if at_least_one_token && s.length == 0 then
      .error (.valueError "prompt must contain at least one character")
    else
      .ok (.str s)
  | .list items => do
    let converted ← items.mapM _to_prompt_item
    return .list converted
  | _ =>
    .error (.valueError
      "Invalid prompt. Prompt must either be a string, or a list of valid multimodal propmt items.")

/-- The HTTP request an operation issues once validation has passed: the
url (`self.host + suffix`) and the JSON payload (`requests.post(url,
headers=..., json=payload)`). -/
structure HttpRequest where
  url : String
  payload : List (String × PyVal)

/-- The arguments of `AlephAlphaClient.complete`, each a dynamically typed
Python value; the default field values are the Python signature's defaults. -/
structure CompleteArgs where
  model : PyVal
  prompt : PyVal := .str ""
  hosting : PyVal := .str "cloud"
  maximum_tokens : PyVal := .int 64
  temperature : PyVal := .float 0
  top_k : PyVal := .int 0
  top_p : PyVal := .float 0
  presence_penalty : PyVal := .float 0
  frequency_penalty : PyVal := .float 0
  repetition_penalties_include_prompt : PyVal := .bool false
  use_multiplicative_presence_penalty : PyVal := .bool false
  best_of : PyVal := .none
  n : PyVal := .int 1
  logit_bias : PyVal := .none
  log_probs : PyVal := .none
  stop_sequences : PyVal := .none
  tokens : PyVal := .bool false
  disable_optimizations : PyVal := .bool false

/-- The `for k, v in logit_bias.items()` loop of `complete`: every key must
be an `int` and every value a `float`. -/
def check_logit_bias_items : List (PyVal × PyVal) → Except PyErr Unit
  | [] => .ok ()
  | (k, v) :: rest =>
    if !isinstance_int k then
      .error (.valueError "a key in the logit_bias dict must be an integer")
    else if !isinstance_float v then
      .error (.valueError "a value in the logit_bias dict must be a float")
    else
      check_logit_bias_items rest

/-- The `for stop_sequence in stop_sequences` loop of `complete`: every item
must be a string. -/
def check_stop_sequences_items : List PyVal → Except PyErr Unit
  | [] => .ok ()
  | item :: rest =>
    if !isinstance_str item then
      .error (.valueError "each item in the stop_sequences list must be a string")
    else
      check_stop_sequences_items rest

/-- The reassignment pattern `if isinstance(x, int): x = float(x)` the source
applies to `temperature`, `top_p`, `presence_penalty` and `frequency_penalty`
before their type checks: an integer input is widened to its float
equivalent, any other input is left unchanged. -/
def coerce_int_to_float (v : PyVal) : PyVal :=
  if isinstance_int v then pyFloat v else v

/-- The `# validate data types` block of `complete`, in source order: the
`isinstance` checks, the serialization of the prompt, and the `float()`
coercions of integer `temperature`/`top_p`/`presence_penalty`/
`frequency_penalty` (each type check reads the coerced local, hence
`coerce_int_to_float` inside the checks).  Returns the serialized prompt,
the one new value the block computes; the coerced locals the block leaves
behind are `complete_coerced` below. -/
def complete_validate_types (args : CompleteArgs) : Except PyErr PyVal :=
  if !isinstance_str args.model then
    .error (.valueError "model must be a string") else
  match _to_serializable_prompt args.prompt false with
  | .error e => .error e
  | .ok prompt =>
  if !(is_none args.maximum_tokens || isinstance_int args.maximum_tokens) then
    .error (.valueError "maximum_tokens must be an int or None") else
  if !(is_none (coerce_int_to_float args.temperature) ||
       isinstance_float (coerce_int_to_float args.temperature)) then
    .error (.valueError "temperature must be a float or None") else
  if !(is_none args.top_k || isinstance_int args.top_k) then
    .error (.valueError "top_k must be a positive int or None") else
  if !(is_none (coerce_int_to_float args.top_p) ||
       isinstance_float (coerce_int_to_float args.top_p)) then
    .error (.valueError "top_p must be a float or None") else
  if !(is_none (coerce_int_to_float args.presence_penalty) ||
       isinstance_float (coerce_int_to_float args.presence_penalty)) then
    .error (.valueError "presence_penalty must be a float or None") else
  if !(is_none (coerce_int_to_float args.frequency_penalty) ||
       isinstance_float (coerce_int_to_float args.frequency_penalty)) then
    .error (.valueError "frequency_penalty must be a float or None") else
  if !(is_none args.repetition_penalties_include_prompt ||
       isinstance_bool args.repetition_penalties_include_prompt) then
    .error (.valueError "repetition_penalties_include_prompt must be a bool or None") else
  if !(is_none args.use_multiplicative_presence_penalty ||
       isinstance_bool args.use_multiplicative_presence_penalty) then
    .error (.valueError "use_multiplicative_presence_penalty must be a bool or None") else
  if !(is_none args.best_of || isinstance_int args.best_of) then
    .error (.valueError "best_of must be an int or None") else
  if !(is_none args.n || isinstance_int args.n) then
    .error (.valueError "n must be an int or None") else
  if !(is_none args.logit_bias || isinstance_dict args.logit_bias) then
    .error (.valueError "logit_bias must be a dict or None") else
  match (if !is_none args.logit_bias then
           check_logit_bias_items args.logit_bias.dictItems
         else .ok ()) with
  | .error e => .error e
  | .ok _ =>
  if !(is_none args.log_probs || isinstance_int args.log_probs) then
    .error (.valueError "log_probs must be an int or None") else
  if !(is_none args.stop_sequences || isinstance_list args.stop_sequences) then
    .error (.valueError "stop_sequences must be an list of strings or None") else
  match (if !is_none args.stop_sequences then
           check_stop_sequences_items args.stop_sequences.listItems
         else .ok ()) with
  | .error e => .error e
  | .ok _ =>
  if !(is_none args.tokens || isinstance_bool args.tokens) then
    .error (.valueError "tokens must be a bool or None") else
  if !(is_none args.disable_optimizations || isinstance_bool args.disable_optimizations) then
    .error (.valueError "disable_optimizations must be a bool or None") else
  .ok prompt

/-- The Python locals of `complete` as they stand after the
`# validate data types` block: the serialized prompt and the four
`float()`-coerced parameters replace the caller's values; every other
parameter is untouched. -/
def complete_coerced (args : CompleteArgs) (prompt : PyVal) : CompleteArgs :=
  { args with
    prompt := prompt,
    temperature := coerce_int_to_float args.temperature,
    top_p := coerce_int_to_float args.top_p,
    presence_penalty := coerce_int_to_float args.presence_penalty,
    frequency_penalty := coerce_int_to_float args.frequency_penalty }

/-- `if maximum_tokens is not None: if maximum_tokens <= 0: raise ...` -/
def check_maximum_tokens_value (a : CompleteArgs) : Except PyErr Unit := do
  if !is_none a.maximum_tokens then
    if ← pyLe a.maximum_tokens (.int 0) then
      throw (.valueError "maximum_tokens must be a positive integer")

/-- `if top_k is not None: if top_k < 0: raise ...` -/
def check_top_k_value (a : CompleteArgs) : Except PyErr Unit := do
  if !is_none a.top_k then
    if ← pyLt a.top_k (.int 0) then
      throw (.valueError "top_k must be a positive integer, 0 or None")

/-- `if temperature is not None: if temperature < 0.0 or temperature > 1.0: raise ...` -/
def check_temperature_value (a : CompleteArgs) : Except PyErr Unit := do
  if !is_none a.temperature then
    if (← pyLt a.temperature (.float 0)) || (← pyGt a.temperature (.float 1)) then
      throw (.valueError "temperature must be a float between 0.0 and 1.0")

/-- `if top_p is not None: if top_p < 0.0 or top_p > 1.0: raise ...` -/
def check_top_p_value (a : CompleteArgs) : Except PyErr Unit := do
  if !is_none a.top_p then
    if (← pyLt a.top_p (.float 0)) || (← pyGt a.top_p (.float 1)) then
      throw (.valueError "top_p must be a float between 0.0 and 1.0")

/-- `if n is not None: if n <= 0: raise ValueError("top_k must be a positive
integer")` — the message the source raises here names `top_k`, not `n`. -/
def check_n_value (a : CompleteArgs) : Except PyErr Unit := do
  if !is_none a.n then
    if ← pyLe a.n (.int 0) then
      throw (.valueError "top_k must be a positive integer")

/-- `if best_of is not None:` — `best_of == n` and `best_of < n` are checked
in turn; `n` itself may be `None` here, in which case `best_of < n` is the
Python 3 `TypeError` between `int` and `NoneType`. -/
def check_best_of_value (a : CompleteArgs) : Except PyErr Unit := do
  if !is_none a.best_of then
    if pyEqB a.best_of a.n then
      throw (.valueError
        "With best_of equal to n no best completions are choses because only n are computed.")
    if ← pyLt a.best_of a.n then
      throw (.valueError
        "best_of needs to be bigger than n. The model cannot return more completions (n) than were computed (best_of).")

/-- The `# validate values` block of `complete`, in source order. -/
def complete_validate_values (a : CompleteArgs) : Except PyErr Unit := do
  check_maximum_tokens_value a
  check_top_k_value a
  check_temperature_value a
  check_top_p_value a
  check_n_value a
  check_best_of_value a

/-- The `payload` dict of `complete`, in source order, built from the
(coerced) locals. -/
def complete_payload (a : CompleteArgs) : List (String × PyVal) :=
  [("model", a.model), ("prompt", a.prompt), ("hosting", a.hosting),
   ("maximum_tokens", a.maximum_tokens), ("temperature", a.temperature),
   ("top_k", a.top_k), ("top_p", a.top_p),
   ("presence_penalty", a.presence_penalty),
   ("frequency_penalty", a.frequency_penalty),
   ("best_of", a.best_of), ("n", a.n),
   ("logit_bias", a.logit_bias), ("log_probs", a.log_probs),
   ("repetition_penalties_include_prompt", a.repetition_penalties_include_prompt),
   ("use_multiplicative_presence_penalty", a.use_multiplicative_presence_penalty),
   ("stop_sequences", a.stop_sequences), ("tokens", a.tokens),
   ("disable_optimizations", a.disable_optimizations)]

/-- `AlephAlphaClient.complete` up to the network boundary: the type checks,
the value checks, and the request (`self.host + "complete"` with the payload)
the method then posts.  `.error e` means the call raises `e` before any
network request is made. -/
def complete (host : String) (args : CompleteArgs) : Except PyErr HttpRequest :=
  match complete_validate_types args with
  | .error e => .error e
  | .ok prompt =>
    match complete_validate_values (complete_coerced args prompt) with
    | .error e => .error e
    | .ok _ => .ok ⟨host ++ "complete", complete_payload (complete_coerced args prompt)⟩

/-- `AlephAlphaClient.evaluate` up to the network boundary. -/
def evaluate (host : String) (model completion_expected hosting prompt : PyVal) :
    Except PyErr HttpRequest :=
  if !isinstance_str model then
    .error (.valueError "model must be a string") else
  match _to_serializable_prompt prompt false with
  | .error e => .error e
  | .ok serializable_prompt =>
  if !isinstance_str completion_expected then
    .error (.valueError "completion_expected must be a string") else
  match completion_expected with
  | .str s =>
    if s.length == 0 then
      .error (.valueError "completion_expected cannot be empty")
    else
      .ok ⟨host ++ "evaluate",
        [("model", model), ("prompt", serializable_prompt),
         ("hosting", hosting), ("completion_expected", completion_expected)]⟩
  | _ => .error (.valueError "completion_expected must be a string")

/-- The arguments of `AlephAlphaClient.qa`; the default field values are the
Python signature's defaults. -/
structure QaArgs where
  model : PyVal
  query : PyVal
  documents : PyVal
  maximum_tokens : PyVal := .int 64
  max_chunk_size : PyVal := .int 175
  disable_optimizations : PyVal := .bool false
  max_answers : PyVal := .int 0
  min_score : PyVal := .float 0

/-- Modelled from the spec: `Document._to_serializable_document` (from
`document.py`, which is not among the repository's files).  Per the spec,
"documents are individually converted to serializable form" and "the client
does not interpret document internals", so the conversion is modelled as
yielding the document's serializable form (the document value itself). -/
def _to_serializable_document (document : PyVal) : PyVal :=
  document

/-- `AlephAlphaClient.qa` up to the network boundary: the type checks (the
documents are converted with `_to_serializable_document` right after the
list check, before the remaining checks, as in the source), the one value
check (`maximum_tokens <= 0`), and the request the method then posts.
Note the source has no emptiness check on `documents` and no range check on
`max_chunk_size`, `max_answers` or `min_score`. -/
def qa (host : String) (args : QaArgs) : Except PyErr HttpRequest :=
  if !isinstance_str args.model then
    .error (.valueError "model must be a string") else
  if !isinstance_str args.query then
    .error (.valueError "query must be a string") else
  if !isinstance_list args.documents then
    .error (.valueError "documents must be a list where all elements are of the type Document") else
  let documents := PyVal.list (args.documents.listItems.map _to_serializable_document)
  if !isinstance_int args.maximum_tokens then
    .error (.valueError "maximum_tokens must be an int") else
  if !isinstance_int args.max_chunk_size then
    .error (.valueError "max_chunk_size must be an int") else
  if !isinstance_int args.max_answers then
    .error (.valueError "max_answers must be an int") else
  if !isinstance_float args.min_score then
    .error (.valueError "min_score must be a float") else
  if !isinstance_bool args.disable_optimizations then
    .error (.valueError "disable_optimizations must be a bool") else
  match pyLe args.maximum_tokens (.int 0) with
  | .error e => .error e
  | .ok true => .error (.valueError "maximum_tokens must be a positive integer")
  | .ok false =>
    .ok ⟨host ++ "qa",
      [("model", args.model), ("query", args.query), ("documents", documents),
       ("maximum_tokens", args.maximum_tokens), ("max_answers", args.max_answers),
       ("min_score", args.min_score), ("max_chunk_size", args.max_chunk_size),
       ("disable_optimizations", args.disable_optimizations)]⟩

/-- The request body of an embedding request, as the spec describes the embed
operation's inputs: a prompt, layer indices and pooling-operation names. -/
structure EmbeddingRequest where
  prompt : PyVal
  layers : List Int
  pooling : List String

/-- Modelled from the spec: `EmbeddingRequest.render_as_body` (from
`embedding.py`, which is not among the repository's files).  Per the spec,
embed "requires model, prompt (with least-one-token constraint), list of
pooling-operation names ..., and list of layer indices"; the least-one-token
constraint is the repository's own `_to_serializable_prompt` with
`at_least_one_token` set, which rejects an empty string prompt. -/
def EmbeddingRequest.render_as_body (request : EmbeddingRequest)
    (model hosting : PyVal) : Except PyErr (List (String × PyVal)) := do
  let prompt ← _to_serializable_prompt request.prompt true
  return [("model", model), ("hosting", hosting), ("prompt", prompt),
          ("layers", PyVal.list (request.layers.map PyVal.int)),
          ("pooling", PyVal.list (request.pooling.map PyVal.str))]

/-- `AlephAlphaClient.embed` up to the network boundary: the body is rendered
by the request object (raising there happens before `requests.post`), then
posted against `self.host + "embed"`. -/
def embed (host : String) (model : PyVal) (request : EmbeddingRequest)
    (hosting : PyVal) : Except PyErr HttpRequest := do
  let body ← request.render_as_body model hosting
  return ⟨host ++ "embed", body⟩

/-- The host normalization of `AlephAlphaClient.__init__`:
`if host[-1] != "/": host += "/"`.  `host[-1]` is the last character;
on the empty string it raises `IndexError`, modelled as `Option.none`. -/
def client_normalize_host (host : String) : Option String :=
  match host.data.getLast? with
  | Option.none => Option.none
  | some c => if c ≠ '/' then some (host ++ "/") else some host

/-- `expect_release` in `AlephAlphaClient.__init__`. -/
def expect_release : String := "1"

/-- The state an `AlephAlphaClient` holds after construction: the normalized
host and the token. -/
structure ClientState where
  host : String
  token : String

/-- The outcome of `AlephAlphaClient.__init__`: a constructed client together
with whether the version-mismatch warning was logged, or a constructor
failure. -/
inductive InitOutcome where
  | ok (state : ClientState) (version_warning : Bool)
  | error (msg : String)

/-- Python truthiness of the optional `token` string as
`token or self.get_token(...)` tests it: `None` and the empty string `""`
are falsy, every other string is truthy. -/
def py_str_truthy : Option String → Bool
  | Option.none => false
  | some t => t != ""

/-- `AlephAlphaClient.__init__`: normalize the host (`host[-1]` raises on an
empty host); fetch the server version (`server_version` is the string
`get_version` returns) and log a warning — only a warning — when it does not
start with `expect_release`; assert that a token or an email/password pair
was supplied; then `self.token = token or self.get_token(email, password)`:
a truthy token is used as supplied, a falsy one (`None` or `""`) falls back
to the exchange (`fetched_token` is `Option.none` when `get_token` gets a
non-200 response and raises `ValueError("cannot get token")`). -/
def client_init (host : String) (server_version : String) (token : Option String)
    (have_credentials : Bool) (fetched_token : Option String) : InitOutcome :=
  match client_normalize_host host with
  | Option.none => .error "IndexError: string index out of range"
  | some normalized =>
    let version_warning := !server_version.startsWith expect_release
    if token.isNone && !have_credentials then
      .error "AssertionError"
    else
      match (if py_str_truthy token then token else fetched_token) with
      | some t => .ok ⟨normalized, t⟩ version_warning
      | Option.none => .error "cannot get token"

/-- A `complete` call with every optional parameter at its Python default
and a concrete model name: the canonical valid argument set used by the
concrete witnesses below. -/
def completeBaseArgs : CompleteArgs :=
  { model := PyVal.str "luminous-base" }

/-- A `qa` call with a concrete model, query and one document, every
optional parameter at its Python default. -/
def qaBaseArgs : QaArgs :=
  { model := PyVal.str "luminous-base", query := PyVal.str "Who developed the first theory?",
    documents := PyVal.list [PyVal.str "A document."] }

/-- The request `qa` issues for `qaBaseArgs` (url `host + "qa"`, payload in
source order). -/
def qaRequest (host : String) (args : QaArgs) : HttpRequest :=
  ⟨host ++ "qa",
   [("model", args.model), ("query", args.query),
    ("documents", PyVal.list (args.documents.listItems.map _to_serializable_document)),
    ("maximum_tokens", args.maximum_tokens), ("max_answers", args.max_answers),
    ("min_score", args.min_score), ("max_chunk_size", args.max_chunk_size),
    ("disable_optimizations", args.disable_optimizations)]⟩

/-- `completeBaseArgs` with the four float-position parameters given as
integers, for the C6 witness. -/
def completeIntFloatsArgs : CompleteArgs :=
  { completeBaseArgs with
    temperature := PyVal.int 1, top_p := PyVal.int 0,
    presence_penalty := PyVal.int 2, frequency_penalty := PyVal.int 3 }

/-- The request `complete` issues for arguments whose prompt serializes to
`prompt` (url `host + "complete"`, payload from the coerced locals). -/
def completeRequest (host : String) (args : CompleteArgs) (prompt : PyVal) : HttpRequest :=
  ⟨host ++ "complete", complete_payload (complete_coerced args prompt)⟩


/-! ## Theorems settling the claims -/

/-- Propagation helper: a bound `Except` computation fails whenever its
continuation fails on every success value. -/
theorem bind_error_right {α β : Type} (u : Except PyErr α) (k : α → Except PyErr β)
    (h : ∀ x, ∃ e, k x = .error e) : ∃ e, (u >>= k) = .error e := by
  cases u with
  | error e => exact ⟨e, rfl⟩
  | ok x =>
    obtain ⟨e, he⟩ := h x
    exact ⟨e, by simpa [Bind.bind, Except.bind] using he⟩

/-- The `best_of` value check fails whenever `best_of` and `n` are integers
with `best_of ≤ n` (through the equality branch or the less-than branch). -/
theorem check_best_of_value_error_of_le (a : CompleteArgs) (b nv : Int)
    (hb : a.best_of = .int b) (hn : a.n = .int nv) (hle : b ≤ nv) :
    ∃ e, check_best_of_value a = .error e := by
  unfold check_best_of_value
  rw [hb, hn]
  by_cases heq : b = nv
  · refine ⟨PyErr.valueError
      "With best_of equal to n no best completions are choses because only n are computed.", ?_⟩
    simp [is_none, pyEqB, PyVal.toRat?, heq, throw, throwThe, MonadExceptOf.throw,
      Bind.bind, Except.bind]
  · have hlt : b < nv := lt_of_le_of_ne hle heq
    refine ⟨PyErr.valueError
      "best_of needs to be bigger than n. The model cannot return more completions (n) than were computed (best_of).", ?_⟩
    simp [is_none, pyEqB, pyLt, PyVal.toRat?, heq, hlt, throw, throwThe, MonadExceptOf.throw,
      Bind.bind, Except.bind, Pure.pure, Except.pure]

/-- Claim C1: for every HTTP response handed to `_translate_errors`,
status 200 returns the decoded JSON body unchanged; status 400 raises the
invalid-argument error; 401 the permission error; 402 the quota error; 408
the timeout error; any other status the generic runtime error; and every
raised error carries the original status code and the decoded body. -/
theorem translate_errors_spec (r : HttpResponse) :
    (r.status_code = 200 → _translate_errors r = .ok r.body) ∧
    (r.status_code = 400 → _translate_errors r = .error (.valueError 400 r.body)) ∧
    (r.status_code = 401 → _translate_errors r = .error (.permissionError 401 r.body)) ∧
    (r.status_code = 402 → _translate_errors r = .error (.quotaError 402 r.body)) ∧
    (r.status_code = 408 → _translate_errors r = .error (.timeoutError 408 r.body)) ∧
    (r.status_code ∉ ([200, 400, 401, 402, 408] : List Nat) →
      _translate_errors r = .error (.runtimeError r.status_code r.body)) ∧
    (∀ e, _translate_errors r = .error e →
      e.status = r.status_code ∧ e.body = r.body) := by
  refine ⟨?_, ?_, ?_, ?_, ?_, ?_, ?_⟩
  · intro h; simp [_translate_errors, h]
  · intro h; simp [_translate_errors, h]
  · intro h; simp [_translate_errors, h]
  · intro h; simp [_translate_errors, h]
  · intro h; simp [_translate_errors, h]
  · intro h
    simp only [List.mem_cons, List.not_mem_nil, or_false, not_or] at h
    obtain ⟨h200, h400, h401, h402, h408⟩ := h
    simp [_translate_errors, h200, h400, h401, h402, h408]
  · intro e h
    unfold _translate_errors at h
    split at h
    · exact absurd h (by simp)
    · split at h <;> [skip; split at h] <;> [skip; skip; split at h] <;>
        [skip; skip; skip; split at h] <;>
        cases h <;> simp [ClientError.status, ClientError.body]

/-- Witness for C1 at a concrete response: a simulated 402 raises the quota
error carrying the status code and body. -/
theorem translate_errors_spec_witness :
    _translate_errors ⟨402, PyVal.str "quota exhausted"⟩ =
      .error (.quotaError 402 (PyVal.str "quota exhausted")) :=
  (translate_errors_spec ⟨402, PyVal.str "quota exhausted"⟩).2.2.2.1 rfl


/-- Claim C2: for every `complete` call where `best_of` is supplied as an
integer and `n` is an integer, if `best_of` equals `n` or `best_of` is less
than `n`, validation fails (a `ValueError`-raising path is taken) before any
network request is made — no `HttpRequest` is produced. -/
theorem complete_best_of_not_above_n_fails (host : String) (args : CompleteArgs)
    (b nv : Int) (hb : args.best_of = .int b) (hn : args.n = .int nv) (hle : b ≤ nv) :
    ∃ e, complete host args = .error e := by
  unfold complete
  cases h1 : complete_validate_types args with
  | error e => exact ⟨e, rfl⟩
  | ok prompt =>
    have h2 : ∃ e, complete_validate_values (complete_coerced args prompt) = .error e := by
      unfold complete_validate_values
      apply bind_error_right; intro x1
      apply bind_error_right; intro x2
      apply bind_error_right; intro x3
      apply bind_error_right; intro x4
      apply bind_error_right; intro x5
      exact check_best_of_value_error_of_le _ b nv hb hn hle
    obtain ⟨e, he⟩ := h2
    exact ⟨e, by simp [he]⟩

/-- Witness for C2: with `best_of = 2` and `n = 2` (all other parameters at
their defaults) the call fails before any request. -/
theorem complete_best_of_not_above_n_fails_witness :
    ∃ e, complete "http://x/"
      { completeBaseArgs with best_of := PyVal.int 2, n := PyVal.int 2 } = .error e :=
  complete_best_of_not_above_n_fails "http://x/"
    { completeBaseArgs with best_of := PyVal.int 2, n := PyVal.int 2 }
    2 2 rfl rfl (by decide)

/-- Claim C10: in `complete`, with `best_of` an integer and `n` explicitly
`None`, every type check passes (`n` may be `None`), `best_of == n` is
`False`, and the order comparison `best_of < n` raises the Python 3
`TypeError` — so the call fails with a type error, not the descriptive
validation error, before any network request. -/
theorem complete_best_of_with_none_n_type_error (host : String) (b : Int) :
    complete host { completeBaseArgs with best_of := PyVal.int b, n := PyVal.none } =
      .error (.typeError "'<' not supported between instances") := rfl

/-- Witness for C10 at `best_of = 2`. -/
theorem complete_best_of_with_none_n_type_error_witness :
    complete "http://x/" { completeBaseArgs with best_of := PyVal.int 2, n := PyVal.none } =
      .error (.typeError "'<' not supported between instances") :=
  complete_best_of_with_none_n_type_error "http://x/" 2

/-- Claim C8 (the failing input): a `complete` call with `n = 0` and every
other parameter valid raises before any network request, but the message is
`"top_k must be a positive integer"` — it names `top_k`, not the offending
parameter `n` (the adjacent genuine `top_k` message reads `"top_k must be a
positive integer, 0 or None"`). -/
theorem complete_n_zero_message_names_top_k :
    complete "http://x/" { completeBaseArgs with n := PyVal.int 0 } =
      .error (.valueError "top_k must be a positive integer") := rfl


/-- Claim C3: for every embed call whose prompt is the empty string,
validation fails with the non-empty-prompt error (the at-least-one-token
constraint of `_to_serializable_prompt`) before any network request is
issued.  (The prompt validation of the embedding request body lives in
`embedding.py`, which is not among the repository's files; it is modelled
from the spec, see `EmbeddingRequest.render_as_body`.) -/
theorem embed_empty_prompt_fails (host : String) (model hosting : PyVal)
    (layers : List Int) (pooling : List String) :
    embed host model ⟨PyVal.str "", layers, pooling⟩ hosting =
      .error (.valueError "prompt must contain at least one character") := rfl

/-- Witness for C3 at a concrete embed call. -/
theorem embed_empty_prompt_fails_witness :
    embed "http://x/" (PyVal.str "luminous-base") ⟨PyVal.str "", [0, -1], ["mean"]⟩
      (PyVal.str "cloud") =
      .error (.valueError "prompt must contain at least one character") :=
  embed_empty_prompt_fails "http://x/" (PyVal.str "luminous-base") (PyVal.str "cloud")
    [0, -1] ["mean"]

/-- Claim C7: for every non-empty host string passed to the constructor, the
stored base endpoint ends with a trailing `'/'` (its last character is
`'/'`); the slash is appended exactly when the host does not already end
with one; and every subsequent `complete` request is issued against the
stored endpoint followed by the operation suffix — e.g. host `"http://x"`
yields requests against `"http://x/"`-prefixed paths. -/
theorem init_host_trailing_slash (host : String) (hne : host ≠ "") :
    ∃ stored, client_normalize_host host = some stored ∧
      stored.data.getLast? = some '/' ∧
      (host.data.getLast? = some '/' → stored = host) ∧
      (host.data.getLast? ≠ some '/' → stored = host ++ "/") ∧
      ∀ args req, complete stored args = .ok req → req.url = stored ++ "complete" := by
  have hurl : ∀ s args req, complete s args = Except.ok req → req.url = s ++ "complete" := by
    intro s args req h
    unfold complete at h
    split at h
    · exact Except.noConfusion h
    · split at h
      · exact Except.noConfusion h
      · injection h with h2
        rw [← h2]
  cases hlast : host.data.getLast? with
  | none =>
    exact absurd (String.ext (List.getLast?_eq_none_iff.mp hlast)) hne
  | some c =>
    by_cases hc : c = '/'
    · subst hc
      refine ⟨host, ?_, hlast, fun _ => rfl, fun hne2 => absurd rfl hne2, hurl host⟩
      unfold client_normalize_host
      rw [hlast]
      simp
    · refine ⟨host ++ "/", ?_, ?_, ?_, fun _ => rfl, hurl (host ++ "/")⟩
      · unfold client_normalize_host
        rw [hlast]
        simp [hc]
      · rw [String.data_append]
        exact List.getLast?_concat host.data
      · intro hsl
        exact absurd (Option.some_injective _ hsl) hc

/-- Witness for C7 at the spec's example host `"http://x"`: the stored
endpoint is `"http://x/"`. -/
theorem init_host_trailing_slash_witness :
    ∃ stored, client_normalize_host "http://x" = some stored ∧
      stored.data.getLast? = some '/' ∧
      (("http://x" : String).data.getLast? = some '/' → stored = "http://x") ∧
      (("http://x" : String).data.getLast? ≠ some '/' → stored = "http://x" ++ "/") ∧
      ∀ args req, complete stored args = .ok req → req.url = stored ++ "complete" :=
  init_host_trailing_slash "http://x" (by decide)

/-- Claim C9: at construction, the server's version string is compared by
prefix match against the expected release `"1"`; for every version string,
construction completes successfully given a valid (truthy, i.e. non-empty —
`token or ...` tests Python truthiness) token, or given credentials and a
successful token exchange, and the warning flag is set exactly when the
prefix does not match — a mismatch never raises an error. -/
theorem init_version_mismatch_warns_only (host server_version tok : String)
    (have_credentials : Bool) (fetched_token : Option String) (normalized : String)
    (hh : client_normalize_host host = some normalized) (htok : tok ≠ "") :
    (client_init host server_version (some tok) have_credentials fetched_token =
      .ok ⟨normalized, tok⟩ (!server_version.startsWith expect_release)) ∧
    (∀ t, client_init host server_version Option.none true (some t) =
      .ok ⟨normalized, t⟩ (!server_version.startsWith expect_release)) := by
  unfold client_init
  rw [hh]
  constructor
  · simp [py_str_truthy, htok]
  · intro t
    simp [py_str_truthy]

/-- Witness for C9: host `"http://x"`, mismatching server version `"0.9.2"`,
token `"token"`: construction succeeds and the warning flag is set. -/
theorem init_version_mismatch_warns_only_witness :
    (client_init "http://x" "0.9.2" (some "token") false Option.none =
      .ok ⟨"http://x/", "token"⟩ (!("0.9.2").startsWith expect_release)) ∧
    (∀ t, client_init "http://x" "0.9.2" Option.none true (some t) =
      .ok ⟨"http://x/", t⟩ (!("0.9.2").startsWith expect_release)) :=
  init_version_mismatch_warns_only "http://x" "0.9.2" "token" false Option.none
    "http://x/" rfl (by decide)


/-- Helper for C6: a `qa` call whose `min_score` is an integer fails
validation (`isinstance(min_score, float)` is false for an `int`), whatever
the other parameters. -/
theorem qa_min_score_int_rejected (host : String) (args : QaArgs) (k : Int)
    (hm : args.min_score = .int k) : ∃ e, qa host args = .error e := by
  unfold qa
  repeat' (first | exact ⟨_, rfl⟩ | split)
  all_goals simp_all [isinstance_float]

/-- Claim C4, corrected: for every `qa` call, if `maximum_tokens` is not an
integer or is non-positive, validation fails before any network request is
made.  (The claim's other half fails on the code: an empty `documents` list
passes validation, see the counterexample.) -/
theorem qa_nonpositive_maximum_tokens_fails (host : String) (args : QaArgs)
    (h : isinstance_int args.maximum_tokens = false ∨
         pyLe args.maximum_tokens (.int 0) = .ok true) :
    ∃ e, qa host args = .error e := by
  unfold qa
  rcases h with h | h
  all_goals repeat' (first | exact ⟨_, rfl⟩ | split)
  all_goals simp_all

/-- Witness for C4's theorem: `maximum_tokens = 0` fails before any request. -/
theorem qa_nonpositive_maximum_tokens_fails_witness :
    ∃ e, qa "http://x/" { qaBaseArgs with maximum_tokens := PyVal.int 0 } = .error e :=
  qa_nonpositive_maximum_tokens_fails "http://x/"
    { qaBaseArgs with maximum_tokens := PyVal.int 0 } (Or.inr rfl)

/-- Counterexample for C4: a `qa` call with an empty `documents` list (and
every other parameter valid) does NOT fail validation — the request is
issued. -/
theorem qa_empty_documents_accepted :
    qa "http://x/" { qaBaseArgs with documents := PyVal.list [] } =
      .ok (qaRequest "http://x/" { qaBaseArgs with documents := PyVal.list [] }) := rfl

/-- Claim C5, corrected: every `qa` call that reaches the network has
`maximum_tokens` an integer that passed the positivity check,
`max_chunk_size` and `max_answers` integers, `min_score` a float and
`disable_optimizations` a bool — these are the only checks: `max_answers`
is never range-checked (see the counterexample for a negative value). -/
theorem qa_parameter_type_checks (host : String) (args : QaArgs) (req : HttpRequest)
    (h : qa host args = .ok req) :
    isinstance_int args.maximum_tokens = true ∧
    pyLe args.maximum_tokens (.int 0) = .ok false ∧
    isinstance_int args.max_chunk_size = true ∧
    isinstance_int args.max_answers = true ∧
    isinstance_float args.min_score = true ∧
    isinstance_bool args.disable_optimizations = true := by
  unfold qa at h
  repeat' split at h
  all_goals first
    | exact Except.noConfusion h
    | simp_all

/-- Witness for C5's theorem at the canonical valid `qa` call. -/
theorem qa_parameter_type_checks_witness :
    isinstance_int qaBaseArgs.maximum_tokens = true ∧
    pyLe qaBaseArgs.maximum_tokens (.int 0) = .ok false ∧
    isinstance_int qaBaseArgs.max_chunk_size = true ∧
    isinstance_int qaBaseArgs.max_answers = true ∧
    isinstance_float qaBaseArgs.min_score = true ∧
    isinstance_bool qaBaseArgs.disable_optimizations = true :=
  qa_parameter_type_checks "http://x/" qaBaseArgs (qaRequest "http://x/" qaBaseArgs) rfl

/-- Counterexample for C5: a `qa` call with `max_answers = -1` (a negative
integer) passes validation and the request is issued — the answer-count
ceiling is only type-checked, not range-checked. -/
theorem qa_negative_max_answers_accepted :
    qa "http://x/" { qaBaseArgs with max_answers := PyVal.int (-1) } =
      .ok (qaRequest "http://x/" { qaBaseArgs with max_answers := PyVal.int (-1) }) := rfl

/-- Claim C6, corrected: in `complete`, integer inputs in the four float
positions `temperature`, `top_p`, `presence_penalty`, `frequency_penalty`
are silently widened to their float equivalents in the transmitted payload;
but the values of `logit_bias` and qa's `min_score` are NOT widened — an
integer there is rejected with a validation error (see the
counterexample for `logit_bias`). -/
theorem complete_integer_widening_positions (host : String) (args : CompleteArgs)
    (req : HttpRequest) (h : complete host args = .ok req) :
    (isinstance_int args.temperature = true →
      ("temperature", pyFloat args.temperature) ∈ req.payload) ∧
    (isinstance_int args.top_p = true →
      ("top_p", pyFloat args.top_p) ∈ req.payload) ∧
    (isinstance_int args.presence_penalty = true →
      ("presence_penalty", pyFloat args.presence_penalty) ∈ req.payload) ∧
    (isinstance_int args.frequency_penalty = true →
      ("frequency_penalty", pyFloat args.frequency_penalty) ∈ req.payload) ∧
    (∀ qargs : QaArgs, ∀ k : Int, qargs.min_score = .int k →
      ∃ e, qa host qargs = .error e) := by
  unfold complete at h
  split at h
  · exact Except.noConfusion h
  · split at h
    · exact Except.noConfusion h
    · injection h with h2
      subst h2
      refine ⟨?_, ?_, ?_, ?_, fun qargs k hm => qa_min_score_int_rejected host qargs k hm⟩
      all_goals intro hint
      all_goals simp [complete_payload, complete_coerced, coerce_int_to_float, hint]

/-- Witness for C6's theorem: integer `temperature = 1` is transmitted as
the float `1.0`. -/
theorem complete_integer_widening_positions_witness :
    ("temperature", pyFloat completeIntFloatsArgs.temperature) ∈
      (completeRequest "http://x/" completeIntFloatsArgs (PyVal.str "")).payload :=
  (complete_integer_widening_positions "http://x/" completeIntFloatsArgs
    (completeRequest "http://x/" completeIntFloatsArgs (PyVal.str "")) rfl).1 rfl

/-- Counterexample for C6: a `complete` call whose `logit_bias` maps token 7
to the integer bias 1 is rejected, not widened. -/
theorem complete_logit_bias_int_value_rejected :
    complete "http://x/" { completeBaseArgs with
      logit_bias := PyVal.dict [(PyVal.int 7, PyVal.int 1)] } =
      .error (.valueError "a value in the logit_bias dict must be a float") := rfl


end AlephAlpha
